import Mathlib

/-!
Verification of the "pairs" game-recommendation web application.

This file gives a shallow embedding, in Lean 4, of the validation layer,
the repository layer and the page-controller logic of the application
(files under `src/`: `models/custom_pydantic.py`, `models/const.py`,
`models/model.py`, `models/account.py`, `models/exception.py`,
`services/user_repository.py`, `services/account_repository.py`,
`services/history_repository.py`, `pages/public/login.py`,
`pages/public/register.py`, `pages/public/recommend.py`,
`pages/private/delete.py`), together with theorems settling the
specification claims about that code.

Conventions of the embedding:
* Python `str` is Lean `String`; Python string length (`len`, pydantic
  `min_length`/`max_length`) is the number of code points, i.e.
  `String.length`.
* Exceptions are explicit: a Python function that may raise is embedded
  as a function into `Except PyError _`.  Where a page controller both
  mutates state and may let an exception escape, the state is threaded
  explicitly so that the state at the moment of the raise is visible.
* The two database tables are Lean lists of rows; `session.get(Model, pk)`
  is `List.find?` on the primary key, a bulk `DELETE ... WHERE` is
  `List.filter`, and deleting one fetched object is `List.eraseP`.
  Committing an insert whose primary key already exists raises
  `IntegrityError` (the declared behaviour of the unique primary-key
  column of `account`).
* The bcrypt primitive (`bcrypt.hashpw` / `bcrypt.checkpw`) is an external
  collaborator; it is modelled as a parameter: any `Bcrypt` structure,
  carrying the primitive's documented round-trip contract
  (`checkpw p (hashpw p salt) = true`).  The random salt of
  `bcrypt.gensalt()` is threaded as an explicit argument.
-/

/-- The Python exceptions that the embedded code can raise.
`attributeError` is `AttributeError` (attribute access on `None`);
`integrityError` is `sqlalchemy.exc.IntegrityError`;
`unmappedInstanceError` is the `sqlalchemy.orm.exc.UnmappedInstanceError`
raised by `Session.delete(None)`;
`notFoundError` is `models.exception.NotFoundError`;
`valueError` is a plain `ValueError`;
`validationError` is `pydantic.ValidationError` (payload: the first error
message). -/
inductive PyError where
  | attributeError : PyError
  | integrityError : PyError
  | unmappedInstanceError : PyError
  | notFoundError (msg : String) : PyError
  | valueError (msg : String) : PyError
  | validationError (msg : String) : PyError
deriving Repr, DecidableEq

/-- Model of the external bcrypt primitive (`bcrypt.hashpw`,
`bcrypt.checkpw`), excluded from the code base as an opaque one-way
hash + verify capability.  `hashpw password salt` is the stored hash;
`checkpw password hash` is the constant-time check.  The field
`checkpw_hashpw` is the primitive's documented round-trip contract. -/
structure Bcrypt where
  hashpw : String → String → String
  checkpw : String → String → Bool
  checkpw_hashpw : ∀ p salt, checkpw p (hashpw p salt) = true

/-- A concrete instance of the bcrypt interface, used to evaluate the
embedded code on closed inputs. -/
def toyBcrypt : Bcrypt where
  hashpw p _salt := "$2b$" ++ p
  checkpw p h := h == "$2b$" ++ p
  checkpw_hashpw := by intro p salt; simp

/-! ## Python string helpers (`str.split`, `str.strip`) -/

/-- The code points Python's `str.strip()` removes (CPython's Unicode
whitespace set). -/
def pyWhitespace : List Nat :=
  [9, 10, 11, 12, 13, 28, 29, 30, 31, 32, 133, 160, 5760,
   8192, 8193, 8194, 8195, 8196, 8197, 8198, 8199, 8200, 8201, 8202,
   8232, 8233, 8239, 8287, 12288]

/-- Whether a character is Python whitespace. -/
def pyIsSpace (c : Char) : Bool := pyWhitespace.contains c.toNat

/-- Python `value.strip()`: remove leading and trailing whitespace. -/
def pyStrip (s : String) : String :=
  String.mk (((s.toList.dropWhile pyIsSpace).reverse.dropWhile pyIsSpace).reverse)

/-- Left-to-right scan of Python `value.split(", ")`: at each
(non-overlapping) occurrence of the separator `", "` the accumulated
token is emitted and the scan restarts after the separator. -/
def sepSplitAux : List Char → List Char → List (List Char)
  | acc, [] => [acc.reverse]
  | acc, ',' :: ' ' :: rest => acc.reverse :: sepSplitAux [] rest
  | acc, c :: rest => sepSplitAux (c :: acc) rest

/-- Python `value.split(", ")`. -/
def pySplitCommaSpace (value : String) : List String :=
  (sepSplitAux [] value.toList).map String.mk

/-! ## `models/custom_pydantic.py`: the enumerated-field validator

`make_option_validator(valid_options, value)` returns `value` unchanged
when it is empty; otherwise it splits on `", "`, strips each token, and
raises `ValueError` when some stripped token is outside `valid_options`.
Membership of the stripped-token set in `valid_options` is what the
set difference `value_options - valid_options` being empty expresses;
the option sets are given as lists of their `.value` labels (sets of
distinct strings in the source, so list membership is faithful). -/

/-- Embedding of `custom_pydantic.make_option_validator`. -/
def make_option_validator (valid_options : List String) (value : String) :
    Except PyError String :=
  if value = "" then .ok value
  else
    let value_options := (pySplitCommaSpace value).map pyStrip
    if value_options.all (fun o => valid_options.contains o) then .ok value
    else .error (.valueError ("無効な値です: " ++ value))

/-- `{genre.value for genre in const.Genre}` (from `models/const.py`). -/
def genreOptions : List String :=
  ["アクション", "アドベンチャー", "ロールプレイング", "シューティング",
   "シミュレーション", "スポーツ", "トリビア", "パズル", "ミュージック", "レース"]

/-- `{hardware.value for hardware in const.Hardware}`. -/
def hardwareOptions : List String :=
  ["Windows", "Mac", "iOS", "Android", "Switch", "Play Station"]

/-- `{game_format.value for game_format in const.GameFormat}`. -/
def gameFormatOptions : List String :=
  ["2D", "3D", "HD2D", "ドット", "アニメ調", "リアル調"]

/-- `{world_view.value for world_view in const.WorldView}`. -/
def worldViewOptions : List String :=
  ["現代", "未来", "古代", "近代", "中世", "ファンタジー", "SF",
   "スチームパンク", "ホラー", "バトルロワイヤル"]

/-- `custom_pydantic.validate_genre`. -/
def validate_genre : String → Except PyError String :=
  make_option_validator genreOptions

/-- `custom_pydantic.validate_hardware`. -/
def validate_hardware : String → Except PyError String :=
  make_option_validator hardwareOptions

/-- `custom_pydantic.validate_game_format`. -/
def validate_game_format : String → Except PyError String :=
  make_option_validator gameFormatOptions

/-- `custom_pydantic.validate_world_view`. -/
def validate_world_view : String → Except PyError String :=
  make_option_validator worldViewOptions

/-! ## `models/model.py` / `models/account.py`: validated value types

Each pydantic wrapper type holds a single field; its constructor raises
`pydantic.ValidationError` when the field constraint fails.  The
embedding keeps only the validated payload: `X.validate s` is
`.ok s` exactly when the constructor `X(x=s)` succeeds. -/

/-- `UserID`: `pydantic.Field(min_length=5, max_length=20)`. -/
def UserID.validate (user_id : String) : Except PyError String :=
  if 5 ≤ user_id.length && user_id.length ≤ 20 then .ok user_id
  else .error (.validationError "ユーザーIDの長さが不正です")

/-- Python `char.isalpha()`.  The source relies only on its ASCII
fragment, which `Char.isAlpha` renders faithfully. -/
def pyIsAlpha (c : Char) : Bool := c.isAlpha

/-- Python `char.isdigit()` (ASCII fragment). -/
def pyIsDigit (c : Char) : Bool := c.isDigit

/-- `Password.validate_password`: at least 8 characters, at least one
alphabetic character, at least one digit. -/
def Password.validate (password : String) : Except PyError String :=
  if password.length < 8 then
    .error (.validationError "パスワードは8文字以上である必要があります")
  else if !(password.toList.any pyIsAlpha) then
    .error (.validationError "パスワードには英字が必要です")
  else if !(password.toList.any pyIsDigit) then
    .error (.validationError "パスワードには数字が必要です")
  else .ok password

/-- `Age`: `pydantic.Field(ge=0, le=100)`. -/
def Age.validate (age : Int) : Except PyError Int :=
  if 0 ≤ age && age ≤ 100 then .ok age
  else .error (.validationError "年齢が不正です")

/-- `Detail`: `pydantic.Field(max_length=1000)`. -/
def Detail.validate (detail : String) : Except PyError String :=
  if detail.length ≤ 1000 then .ok detail
  else .error (.validationError "詳細が長すぎます")

/-! ## `RecommendedGame.from_text`: marker extraction

The source runs `re.search(r"推薦ゲーム: ([^\n]*)", recommended_text)`:
find the leftmost occurrence of the literal `推薦ゲーム: ` and capture
the following characters up to (excluding) the next newline or the end
of the text; raise `ValueError` when there is no occurrence.  The
captured group is then passed through the `max_length=100` pydantic
constraint of the `recommended_game` field. -/

/-- The literal part of the search pattern, `推薦ゲーム: `. -/
def markerChars : List Char := "推薦ゲーム: ".toList

/-- Whether `pat` is an initial segment of `l`. -/
def listStartsWith : List Char → List Char → Bool
  | [], _ => true
  | _ :: _, [] => false
  | p :: ps, c :: cs => p == c && listStartsWith ps cs

/-- The regex capture `([^\n]*)`: the characters before the next
newline (or all of them when there is none). -/
def takeUntilNewline : List Char → List Char
  | [] => []
  | c :: cs => if c == '\n' then [] else c :: takeUntilNewline cs

/-- `re.search` for the pattern: leftmost occurrence of the marker,
returning the capture group; `none` when the marker does not occur. -/
def searchMarker : List Char → Option (List Char)
  | [] => none
  | c :: cs =>
    if listStartsWith markerChars (c :: cs) then
      some (takeUntilNewline ((c :: cs).drop markerChars.length))
    else searchMarker cs

/-- Whether `pat` occurs as a contiguous run inside `l`. -/
def containsSub (pat : List Char) : List Char → Bool
  | [] => listStartsWith pat []
  | c :: cs => listStartsWith pat (c :: cs) || containsSub pat cs

/-- The `max_length=100` constraint of the `recommended_game` field. -/
def RecommendedGame.validate (recommended_game : String) : Except PyError String :=
  if recommended_game.length ≤ 100 then .ok recommended_game
  else .error (.validationError "推薦ゲーム名が長すぎます")

/-- Embedding of `RecommendedGame.from_text`. -/
def RecommendedGame.from_text (recommended_text : String) : Except PyError String :=
  match searchMarker recommended_text.toList with
  | none => .error (.valueError "予期せぬエラーが発生しました: 推薦ゲームが見つかりませんでした")
  | some captured => RecommendedGame.validate (String.mk captured)

/-! ## Storage model: the `account` and `history` tables -/

/-- A row of the `account` table (`models/model.py`, class `Account`). -/
structure AccountRow where
  user_id : String
  hashed_password : String
  age : Int
  sex : String
deriving Repr, DecidableEq

/-- A row of the `history` table (`models/model.py`, class `History`).
`id` is the auto-assigned integer primary key; it is `none` only on an
object not yet committed. -/
structure HistoryRow where
  id : Option Nat
  user_id : String
  genre : String
  price : String
  hardware : String
  game_format : String
  world_view : String
  detail : String
  recommended_game : String
deriving Repr, DecidableEq

/-- The database: the two tables plus the autoincrement counter of
`history.id`. -/
structure DB where
  accounts : List AccountRow
  histories : List HistoryRow
  next_id : Nat
deriving Repr, DecidableEq

/-- `HashedPassword.from_password`: hash the plaintext with
`bcrypt.hashpw(password, bcrypt.gensalt())`; the random salt is the
explicit `salt` argument. -/
def HashedPassword.from_password (B : Bcrypt) (salt password : String) : String :=
  B.hashpw password salt

/-- `HashedPassword.verify`: `bcrypt.checkpw(password, hashed_password)`. -/
def HashedPassword.verify (B : Bcrypt) (hashed_password password : String) : Bool :=
  B.checkpw password hashed_password

/-! ## `services/user_repository.py` -/

/-- Embedding of `UserRepository.login`.  The source fetches the account
by primary key and then immediately evaluates
`account_model.hashed_password` to build the `HashedPassword` wrapper:
when the fetch returned `None` this attribute access raises
`AttributeError`, before the `is not None` test is ever reached.  When a
row exists, the guard `account_model is not None` holds and the result
is the bcrypt verification. -/
def UserRepository.login (B : Bcrypt) (db : DB) (user_id password : String) :
    Except PyError Bool :=
  match db.accounts.find? (fun a => a.user_id == user_id) with
  | none => .error .attributeError
  | some account_model =>
      .ok (HashedPassword.verify B account_model.hashed_password password)

/-! ## `services/account_repository.py` -/

/-- `Account.from_model`: flatten the validated wrappers into a row. -/
def Account.from_model (user_id hashed_password : String) (age : Int) (sex : String) :
    AccountRow :=
  ⟨user_id, hashed_password, age, sex⟩

/-- Embedding of `AccountRepository.add`: hash the password, insert the
row, commit.  The commit raises `sqlalchemy.exc.IntegrityError` when the
primary key `user_id` already exists (the unique primary-key column of
`account`); the table is unchanged in that case. -/
def AccountRepository.add (B : Bcrypt) (salt : String) (db : DB)
    (user_id password : String) (age : Int) (sex : String) : Except PyError DB :=
  let hashed_password := HashedPassword.from_password B salt password
  if db.accounts.any (fun a => a.user_id == user_id) then .error .integrityError
  else .ok { db with
    accounts := db.accounts ++ [Account.from_model user_id hashed_password age sex] }

/-- Embedding of `AccountRepository.fetch`: `session.get` by primary key. -/
def AccountRepository.fetch (db : DB) (user_id : String) : Option AccountRow :=
  db.accounts.find? (fun a => a.user_id == user_id)

/-- Embedding of `AccountRepository.delete`: the source runs
`session.delete(session.get(Account, user_id))` without checking the
fetch result.  `Session.delete(None)` raises
`sqlalchemy.orm.exc.UnmappedInstanceError` (`NoneType` is not mapped),
so an absent account raises; otherwise the fetched row is deleted. -/
def AccountRepository.delete (db : DB) (user_id : String) : Except PyError DB :=
  match db.accounts.find? (fun a => a.user_id == user_id) with
  | none => .error .unmappedInstanceError
  | some _ => .ok { db with
      accounts := db.accounts.eraseP (fun a => a.user_id == user_id) }

/-! ## `services/history_repository.py` -/

/-- Embedding of `HistoryRepository.add`: build the row with
`History.from_model` (which stores the `price` display string) and
commit it; the commit assigns the autoincrement id. -/
def HistoryRepository.add (db : DB)
    (user_id genre price hardware game_format world_view detail
     recommended_game : String) : DB :=
  { db with
    histories := db.histories ++
      [⟨some db.next_id, user_id, genre, price, hardware, game_format,
        world_view, detail, recommended_game⟩],
    next_id := db.next_id + 1 }

/-- Embedding of `HistoryRepository.search`: `SELECT ... WHERE user_id = _`,
in storage order. -/
def HistoryRepository.search (db : DB) (user_id : String) : List HistoryRow :=
  db.histories.filter (fun h => h.user_id == user_id)

/-- Embedding of `HistoryRepository.delete`: fetch by primary key; raise
`exception.NotFoundError(f"history_id: {history_id}")` when absent
(nothing deleted), else delete the fetched row. -/
def HistoryRepository.delete (db : DB) (history_id : Nat) : Except PyError DB :=
  match db.histories.find? (fun h => h.id == some history_id) with
  | none => .error (.notFoundError ("history_id: " ++ toString history_id))
  | some _ => .ok { db with
      histories := db.histories.eraseP (fun h => h.id == some history_id) }

/-- Embedding of `HistoryRepository.delete_all`:
`DELETE FROM history WHERE user_id = _`; no error when no row matches. -/
def HistoryRepository.delete_all (db : DB) (user_id : String) : DB :=
  { db with histories := db.histories.filter (fun h => !(h.user_id == user_id)) }

/-! ## Session state (`session.py`) and page controllers -/

/-- The page identifiers of `const.PageID`. -/
inductive PageID where
  | LOGIN | REGISTER | RECOMMEND | ACCOUNT_INFO | HISTORY | DELETE
deriving Repr, DecidableEq

/-- The mutable session state managed by `session.SessionManager`:
the current page and the logged-in user id (or `none`). -/
structure SessionState where
  page_id : PageID
  user_id : Option String
deriving Repr, DecidableEq

/-- What a page interaction produced for the user:
`msg m` — an error/info box rendered inside the controller (`st.error`);
`success` — the action succeeded and the page reran;
`shown t` — the recommendation text `t` was displayed;
`raised e` — the exception `e` escaped the page controller uncaught. -/
inductive PageOutcome where
  | msg (text : String)
  | success
  | shown (text : String)
  | raised (e : PyError)
deriving Repr, DecidableEq

/-! ## `pages/public/login.py` -/

/-- Embedding of the login-form submission path of `LoginPage.render`
together with `LoginPage.__login`: build `UserID` and `Password`
(pydantic constructors), call `UserRepository.login`, set the session
user id on success; the surrounding
`except (pydantic.ValidationError, AttributeError)` turns exactly those
two exception classes into the inline message
`ユーザーIDまたはパスワードが違います`, which `__login` also shows when
`login` returns `False`. -/
def LoginPage.submit (B : Bcrypt) (db : DB) (sess : SessionState)
    (user_id password : String) : SessionState × PageOutcome :=
  let caught := (sess, PageOutcome.msg "ユーザーIDまたはパスワードが違います")
  match UserID.validate user_id with
  | .error (.validationError _) => caught
  | .error e => (sess, .raised e)
  | .ok u =>
    match Password.validate password with
    | .error (.validationError _) => caught
    | .error e => (sess, .raised e)
    | .ok p =>
      match UserRepository.login B db u p with
      | .error .attributeError => caught
      | .error e => (sess, .raised e)
      | .ok false => (sess, .msg "ユーザーIDまたはパスワードが違います")
      | .ok true => ({ sess with user_id := some u }, .success)

/-! ## `pages/public/register.py` -/

/-- Embedding of `RegisterPage.__register` (inputs already validated):
call `AccountRepository.add`; `except sqlalchemy.exc.IntegrityError`
becomes the inline message `ユーザーIDが既に存在しています` and nothing
else changes; on success the session user id is set. -/
def RegisterPage.register (B : Bcrypt) (salt : String) (db : DB)
    (sess : SessionState) (user_id password : String) (age : Int) (sex : String) :
    DB × SessionState × PageOutcome :=
  match AccountRepository.add B salt db user_id password age sex with
  | .error .integrityError => (db, sess, .msg "ユーザーIDが既に存在しています")
  | .error e => (db, sess, .raised e)
  | .ok db1 => (db1, { sess with user_id := some user_id }, .success)

/-! ## `pages/private/delete.py` -/

/-- Embedding of `DeletePage.__delete`: delete the account, then bulk
delete the user's history rows, clear the session user id and navigate
to the login page.  No exception is caught here, so an error from
`AccountRepository.delete` escapes with the state unchanged. -/
def DeletePage.delete (db : DB) (sess : SessionState) (user_id : String) :
    DB × SessionState × PageOutcome :=
  match AccountRepository.delete db user_id with
  | .error e => (db, sess, .raised e)
  | .ok db1 =>
    let db2 := HistoryRepository.delete_all db1 user_id
    (db2, { sess with user_id := none, page_id := PageID.LOGIN },
     .msg "アカウントの削除に成功しました")

/-! ## `pages/public/recommend.py` -/

/-- pydantic wraps a `ValueError` raised inside a field validator into a
`pydantic.ValidationError` of the model constructor; this converts the
error of a raw validator accordingly. -/
def pydanticWrap (r : Except PyError String) : Except PyError String :=
  match r with
  | .error (.valueError m) => .error (.validationError m)
  | r => r

/-- The `model.Genre` constructor. -/
def Genre.validate (genre : String) : Except PyError String :=
  pydanticWrap (validate_genre genre)

/-- The `model.Hardware` constructor. -/
def Hardware.validate (hardware : String) : Except PyError String :=
  pydanticWrap (validate_hardware hardware)

/-- The `model.GameFormat` constructor. -/
def GameFormat.validate (game_format : String) : Except PyError String :=
  pydanticWrap (validate_game_format game_format)

/-- The `model.WorldView` constructor. -/
def WorldView.validate (world_view : String) : Except PyError String :=
  pydanticWrap (validate_world_view world_view)

/-- The `model.Price` constructor: both bounds in `[0, 10000]`, each a
multiple of `1000`, and `low_price ≤ high_price`. -/
def Price.validate (low_price high_price : Int) : Except PyError (Int × Int) :=
  if !(0 ≤ low_price && low_price ≤ 10000 && low_price % 1000 == 0) then
    .error (.validationError "価格が不正です")
  else if !(0 ≤ high_price && high_price ≤ 10000 && high_price % 1000 == 0) then
    .error (.validationError "価格が不正です")
  else if low_price > high_price then
    .error (.validationError "最低価格は最高価格以下である必要があります")
  else .ok (low_price, high_price)

/-- The `Price.price` property: the display string `f"{low}円 ~ {high}円"`. -/
def Price.display (low_price high_price : Int) : String :=
  toString low_price ++ "円 ~ " ++ toString high_price ++ "円"

/-- Embedding of `RecommendPage.__recommend` (fields already validated;
`price` is the display string the history row stores).
`recommended_text` is the result of the external recommendation call
(`None` when the call layer signals no content).  A `None` result is
reported inline and nothing is stored.  Otherwise
`RecommendedGame.from_text` runs: its exception propagates out of
`__recommend` as an `Except.error` — at that point no history row has
been written.  On success a history row is added exactly when a user is
logged in, and the text is shown. -/
def RecommendPage.recommend (db : DB) (sess : SessionState)
    (recommended_text : Option String)
    (genre price hardware game_format world_view detail : String) :
    Except PyError (DB × PageOutcome) :=
  match recommended_text with
  | none =>
      .ok (db, .msg "予期せぬエラーが発生しました: おすすめのゲームが見つかりませんでした")
  | some text =>
    match RecommendedGame.from_text text with
    | .error e => .error e
    | .ok recommended_game =>
      match sess.user_id with
      | some uid =>
          .ok (HistoryRepository.add db uid genre price hardware game_format
                 world_view detail recommended_game, .shown text)
      | none => .ok (db, .shown text)

/-- Embedding of the search-button path of `RecommendPage.render`: build
the six validated models and run `__recommend`, all inside
`try ... except pydantic.ValidationError`; a `ValidationError` from any
constructor becomes an inline message, while any other exception (in
particular the `ValueError` of `RecommendedGame.from_text`) escapes the
controller uncaught. -/
def RecommendPage.searchSubmit (db : DB) (sess : SessionState)
    (recommended_text : Option String)
    (genre_input : String) (low_price high_price : Int)
    (hardware_input game_format_input world_view_input detail_input : String) :
    DB × PageOutcome :=
  let body : Except PyError (DB × PageOutcome) := do
    let genre ← Genre.validate genre_input
    let (low, high) ← Price.validate low_price high_price
    let hardware ← Hardware.validate hardware_input
    let game_format ← GameFormat.validate game_format_input
    let world_view ← WorldView.validate world_view_input
    let detail ← Detail.validate detail_input
    RecommendPage.recommend db sess recommended_text genre
      (Price.display low high) hardware game_format world_view detail
  match body with
  | .ok r => r
  | .error (.validationError m) => (db, .msg m)
  | .error e => (db, .raised e)

/-! # Theorems settling the claims -/

/-! ## Helper lemmas -/

/-- `Except.isOk` in terms of the constructors. -/
theorem except_isOk_iff {α β : Type} (e : Except α β) :
    e.isOk = true ↔ ∃ v, e = .ok v := by
  cases e <;> simp [Except.isOk, Except.toBool]

/-- `make_option_validator` accepts exactly the empty string and the
strings all of whose stripped `", "`-tokens are valid options. -/
theorem make_option_validator_isOk_iff (opts : List String) (v : String) :
    (make_option_validator opts v).isOk = true ↔
      (v = "" ∨ ∀ t ∈ (pySplitCommaSpace v).map pyStrip, t ∈ opts) := by
  unfold make_option_validator
  by_cases hv : v = ""
  · simp [hv, Except.isOk, Except.toBool]
  · simp only [hv, if_false]
    by_cases hall : ((pySplitCommaSpace v).map pyStrip).all (fun o => opts.contains o) = true
    · simp only [hall, if_true, Except.isOk, Except.toBool]
      simp only [List.all_eq_true, List.elem_iff] at hall
      simpa [hv] using fun t ht => hall t ht
    · simp only [hall, if_false, Except.isOk, Except.toBool]
      simp only [List.all_eq_true, List.elem_iff] at hall
      simpa [hv] using hall

/-! ## Claim C3: enumerated multi-select validation -/

/-- C3, counterexample.  The claim — validation accepts `s` iff `s` is
empty or every token of `s.split(", ")` is itself a member of the fixed
option set — is false at `s = "アクション "`: the genre validator
accepts it (each token is stripped before the membership test), yet its
only token `"アクション "` is not a member of the genre option set. -/
theorem C3_option_validator_counterexample :
    ¬ (((validate_genre "アクション ").isOk = true) ↔
       ("アクション " = "" ∨ ∀ t ∈ pySplitCommaSpace "アクション ", t ∈ genreOptions)) := by
  decide

/-- C3, amended.  For each of the four enumerated multi-select fields
(genre, hardware, game_format, world_view), validation accepts `s` iff
`s` is the empty string or every token obtained by splitting `s` on
`", "` is, after stripping surrounding Python whitespace, a member of
that field's fixed option set; the empty string is accepted
unconditionally. -/
theorem C3_option_validator_amended (s : String) :
    (((validate_genre s).isOk = true) ↔
       (s = "" ∨ ∀ t ∈ (pySplitCommaSpace s).map pyStrip, t ∈ genreOptions)) ∧
    (((validate_hardware s).isOk = true) ↔
       (s = "" ∨ ∀ t ∈ (pySplitCommaSpace s).map pyStrip, t ∈ hardwareOptions)) ∧
    (((validate_game_format s).isOk = true) ↔
       (s = "" ∨ ∀ t ∈ (pySplitCommaSpace s).map pyStrip, t ∈ gameFormatOptions)) ∧
    (((validate_world_view s).isOk = true) ↔
       (s = "" ∨ ∀ t ∈ (pySplitCommaSpace s).map pyStrip, t ∈ worldViewOptions)) :=
  ⟨make_option_validator_isOk_iff genreOptions s,
   make_option_validator_isOk_iff hardwareOptions s,
   make_option_validator_isOk_iff gameFormatOptions s,
   make_option_validator_isOk_iff worldViewOptions s⟩

/-! ## Claim C1: `UserRepository.login` -/

/-- C1, code bug.  The claim (and the function's own docstring) says
`login` returns `False` when no account row with the given user id
exists.  The code instead evaluates `account_model.hashed_password`
before the `is not None` guard, so an absent account raises
`AttributeError` (first conjunct, evaluated on an empty account table).
The other two branches of the claim do hold: with the account present,
`login` returns `True` on the matching password and `False` on a
non-matching one (second and third conjuncts, under the toy bcrypt
instance). -/
theorem C1_login_absent_account_raises :
    UserRepository.login toyBcrypt ⟨[], [], 1⟩ "abcde" "pass1234" =
      .error .attributeError ∧
    UserRepository.login toyBcrypt
      ⟨[⟨"abcde", toyBcrypt.hashpw "pass1234" "salt", 25, "男性"⟩], [], 1⟩
      "abcde" "pass1234" = .ok true ∧
    UserRepository.login toyBcrypt
      ⟨[⟨"abcde", toyBcrypt.hashpw "pass1234" "salt", 25, "男性"⟩], [], 1⟩
      "abcde" "wrong9999" = .ok false := by
  refine ⟨rfl, rfl, rfl⟩

/-! ## Claim C8: hash/verify round trip -/

/-- C8.  For every bcrypt primitive satisfying the round-trip contract,
every salt and every password `p`: `verify (from_password p) p = true`;
and for every `p2 ≠ p`, `verify (from_password p) p2 = false` modulo
hash collisions (the hypothesis `hnocol` states that `p2` does not
collide with `p` on this hash). -/
theorem C8_verify_from_password (B : Bcrypt) (salt p p2 : String)
    (hnocol : p2 ≠ p → B.checkpw p2 (B.hashpw p salt) = false) :
    HashedPassword.verify B (HashedPassword.from_password B salt p) p = true ∧
    (p2 ≠ p → HashedPassword.verify B (HashedPassword.from_password B salt p) p2 = false) :=
  ⟨B.checkpw_hashpw p salt, fun hne => hnocol hne⟩

/-- Witness for C8 at `p = "pass1234"`, `p2 = "other123"` under the toy
bcrypt instance. -/
theorem C8_verify_from_password_witness :
    HashedPassword.verify toyBcrypt
      (HashedPassword.from_password toyBcrypt "salt" "pass1234") "pass1234" = true ∧
    HashedPassword.verify toyBcrypt
      (HashedPassword.from_password toyBcrypt "salt" "pass1234") "other123" = false :=
  ⟨(C8_verify_from_password toyBcrypt "salt" "pass1234" "other123" (fun _ => by decide)).1,
   (C8_verify_from_password toyBcrypt "salt" "pass1234" "other123" (fun _ => by decide)).2
     (by decide)⟩

/-! ## Claim C10: `AccountRepository.delete` on an absent account -/

/-- C10.  For every user id with no stored account row,
`AccountRepository.delete` raises (the `None` result of the fetch is
passed to `Session.delete`, which rejects an unmapped `None`); it never
completes as a silent no-op and never reports success. -/
theorem C10_delete_absent_account_raises (db : DB) (uid : String)
    (habs : db.accounts.find? (fun a => a.user_id == uid) = none) :
    AccountRepository.delete db uid = .error .unmappedInstanceError := by
  simp [AccountRepository.delete, habs]

/-- Witness for C10: deleting `"abcde"` when only `"other"` is stored. -/
theorem C10_delete_absent_account_raises_witness :
    AccountRepository.delete ⟨[⟨"other", "h", 30, "女性"⟩], [], 1⟩ "abcde" =
      .error .unmappedInstanceError :=
  C10_delete_absent_account_raises ⟨[⟨"other", "h", 30, "女性"⟩], [], 1⟩ "abcde" (by decide)

/-! ## Claim C4: duplicate registration -/

/-- C4.  When an account row with the given user id already exists, the
second `AccountRepository.add` fails with the uniqueness-conflict
signal `IntegrityError`; `RegisterPage.__register` catches it and shows
the user-facing message `ユーザーIDが既に存在しています` instead of a
raw storage exception, and the whole database — in particular the first
account's row — is returned unchanged. -/
theorem C4_duplicate_register_conflict (B : Bcrypt) (salt : String) (db : DB)
    (sess : SessionState) (uid pw : String) (age : Int) (sex : String)
    (hdup : db.accounts.any (fun a => a.user_id == uid) = true) :
    AccountRepository.add B salt db uid pw age sex = .error .integrityError ∧
    RegisterPage.register B salt db sess uid pw age sex =
      (db, sess, .msg "ユーザーIDが既に存在しています") := by
  constructor
  · simp [AccountRepository.add, hdup]
  · simp [RegisterPage.register, AccountRepository.add, hdup]

/-- Witness for C4: registering `"abcde"` a second time. -/
theorem C4_duplicate_register_conflict_witness :
    AccountRepository.add toyBcrypt "salt" ⟨[⟨"abcde", "$2b$pass1234", 25, "男性"⟩], [], 1⟩
      "abcde" "pass5678" 30 "女性" = .error .integrityError ∧
    RegisterPage.register toyBcrypt "salt" ⟨[⟨"abcde", "$2b$pass1234", 25, "男性"⟩], [], 1⟩
      ⟨PageID.REGISTER, none⟩ "abcde" "pass5678" 30 "女性" =
      (⟨[⟨"abcde", "$2b$pass1234", 25, "男性"⟩], [], 1⟩, ⟨PageID.REGISTER, none⟩,
       .msg "ユーザーIDが既に存在しています") :=
  C4_duplicate_register_conflict toyBcrypt "salt"
    ⟨[⟨"abcde", "$2b$pass1234", 25, "男性"⟩], [], 1⟩
    ⟨PageID.REGISTER, none⟩ "abcde" "pass5678" 30 "女性" (by decide)

/-! ## More helper lemmas (unique-key lists) -/

/-- After `eraseP p` on a list in which no two elements both satisfy
`p`, no element satisfying `p` remains. -/
theorem find?_eraseP_of_pairwise {α : Type} (l : List α) (p : α → Bool)
    (h : l.Pairwise (fun a b => ¬(p a = true ∧ p b = true))) :
    (l.eraseP p).find? p = none := by
  induction l with
  | nil => rfl
  | cons a t ih =>
    rcases List.pairwise_cons.mp h with ⟨ha, ht⟩
    by_cases hpa : p a = true
    · rw [List.eraseP_cons_of_pos hpa]
      exact List.find?_eq_none.mpr fun b hb hpb => ha b hb ⟨hpa, hpb⟩
    · rw [List.eraseP_cons_of_neg (by simpa using hpa)]
      rw [List.find?_cons_of_neg _ (by simpa using hpa)]
      exact ih ht

/-- On a list in which no two elements both satisfy `p`, removing the
first match removes every match. -/
theorem eraseP_eq_filter_of_pairwise {α : Type} (l : List α) (p : α → Bool)
    (h : l.Pairwise (fun a b => ¬(p a = true ∧ p b = true))) :
    l.eraseP p = l.filter (fun a => !(p a)) := by
  induction l with
  | nil => rfl
  | cons a t ih =>
    rcases List.pairwise_cons.mp h with ⟨ha, ht⟩
    by_cases hpa : p a = true
    · rw [List.eraseP_cons_of_pos hpa]
      have : t.filter (fun a => !(p a)) = t :=
        List.filter_eq_self.mpr fun b hb => by
          simpa using fun hpb => ha b hb ⟨hpa, hpb⟩
      simp [List.filter_cons, hpa, this]
    · rw [List.eraseP_cons_of_neg (by simpa using hpa)]
      simp [List.filter_cons, hpa, ih ht]

/-- A double filter with complementary predicates is empty. -/
theorem filter_not_filter_eq_nil {α : Type} (l : List α) (p : α → Bool) :
    (l.filter (fun a => !(p a))).filter p = [] := by
  rw [List.filter_filter]
  exact List.filter_eq_nil_iff.mpr fun a _ => by cases h : p a <;> simp [h]

/-! ## Claim C5: account deletion cascades to history -/

/-- C5.  Under the primary-key uniqueness of `account.user_id`, deleting
a logged-in user's account through `DeletePage.__delete` removes the
account row (no account with that id remains) and every history row of
that user, so `HistoryRepository.search` on the resulting database is
empty; and `HistoryRepository.delete_all` is a no-op on a database in
which the user has no history rows. -/
theorem C5_delete_cascade (db : DB) (sess : SessionState) (uid : String)
    (hacc : db.accounts.any (fun a => a.user_id == uid) = true)
    (huniq : db.accounts.Pairwise (fun a b => a.user_id ≠ b.user_id)) :
    (DeletePage.delete db sess uid).1.accounts.find? (fun a => a.user_id == uid) = none ∧
    HistoryRepository.search (DeletePage.delete db sess uid).1 uid = [] ∧
    (HistoryRepository.search db uid = [] → HistoryRepository.delete_all db uid = db) := by
  have hpair : db.accounts.Pairwise
      (fun a b => ¬((a.user_id == uid) = true ∧ (b.user_id == uid) = true)) :=
    huniq.imp (by intro a b hne ⟨ha, hb⟩
                  exact hne ((eq_of_beq ha).trans (eq_of_beq hb).symm))
  have hsome : db.accounts.find? (fun a => a.user_id == uid) ≠ none := by
    rcases List.any_eq_true.mp hacc with ⟨x, hx, hpx⟩
    intro hnone
    exact absurd hpx (by simpa using List.find?_eq_none.mp hnone x hx)
  rcases hfind : db.accounts.find? (fun a => a.user_id == uid) with _ | row
  · exact absurd hfind hsome
  · have hdel : AccountRepository.delete db uid =
        .ok { db with accounts := db.accounts.eraseP (fun a => a.user_id == uid) } := by
      simp [AccountRepository.delete, hfind]
    have hpage : DeletePage.delete db sess uid =
        ({ accounts := db.accounts.eraseP (fun a => a.user_id == uid),
           histories := db.histories.filter (fun h => !(h.user_id == uid)),
           next_id := db.next_id },
         ⟨PageID.LOGIN, none⟩, .msg "アカウントの削除に成功しました") := by
      simp [DeletePage.delete, hdel, HistoryRepository.delete_all]
    refine ⟨?_, ?_, ?_⟩
    · rw [hpage]
      exact find?_eraseP_of_pairwise _ _ hpair
    · rw [hpage]
      exact filter_not_filter_eq_nil _ _
    · intro hnone
      unfold HistoryRepository.delete_all
      rw [List.filter_eq_self.mpr]
      · intro b hb
        have := List.filter_eq_nil_iff.mp hnone b hb
        simpa using this

/-- Witness for C5: a user `"abcde"` with one account row and two
history rows; after `DeletePage.__delete` the account is gone and the
search is empty; `delete_all` on a history-free database is a no-op. -/
theorem C5_delete_cascade_witness :
    (DeletePage.delete
       ⟨[⟨"abcde", "$2b$pass1234", 25, "男性"⟩],
        [⟨some 1, "abcde", "アクション", "0円 ~ 5000円", "", "", "", "", "Zelda"⟩,
         ⟨some 2, "abcde", "", "0円 ~ 0円", "", "", "", "", "Mario"⟩], 3⟩
       ⟨PageID.DELETE, some "abcde"⟩ "abcde").1.accounts.find?
      (fun a => a.user_id == "abcde") = none ∧
    HistoryRepository.search
      (DeletePage.delete
       ⟨[⟨"abcde", "$2b$pass1234", 25, "男性"⟩],
        [⟨some 1, "abcde", "アクション", "0円 ~ 5000円", "", "", "", "", "Zelda"⟩,
         ⟨some 2, "abcde", "", "0円 ~ 0円", "", "", "", "", "Mario"⟩], 3⟩
       ⟨PageID.DELETE, some "abcde"⟩ "abcde").1 "abcde" = [] ∧
    HistoryRepository.delete_all ⟨[⟨"abcde", "$2b$pass1234", 25, "男性"⟩], [], 1⟩ "abcde" =
      ⟨[⟨"abcde", "$2b$pass1234", 25, "男性"⟩], [], 1⟩ := by
  refine ⟨?_, ?_, ?_⟩
  · exact (C5_delete_cascade _ ⟨PageID.DELETE, some "abcde"⟩ "abcde" (by decide)
      (by simp)).1
  · exact (C5_delete_cascade _ ⟨PageID.DELETE, some "abcde"⟩ "abcde" (by decide)
      (by simp)).2.1
  · exact (C5_delete_cascade ⟨[⟨"abcde", "$2b$pass1234", 25, "男性"⟩], [], 1⟩
      ⟨PageID.DELETE, some "abcde"⟩ "abcde" (by decide) (by simp)).2.2 rfl

/-! ## Claim C6: `HistoryRepository.delete` by id -/

/-- C6.  Under the primary-key uniqueness of `history.id`:
`HistoryRepository.delete history_id` raises `NotFoundError` if and only
if no history row with that id exists (and, raising before any
deletion, returns no modified database — the storage is unchanged);
when a row with that id exists, the result keeps exactly the rows with
a different id, i.e. exactly that row is deleted. -/
theorem C6_history_delete (db : DB) (hid : Nat)
    (huniq : db.histories.Pairwise (fun a b => a.id ≠ b.id)) :
    (HistoryRepository.delete db hid =
        .error (.notFoundError ("history_id: " ++ toString hid)) ↔
      db.histories.find? (fun h => h.id == some hid) = none) ∧
    ((db.histories.find? (fun h => h.id == some hid)).isSome = true →
      HistoryRepository.delete db hid =
        .ok { db with histories := db.histories.filter (fun h => !(h.id == some hid)) }) := by
  have hpair : db.histories.Pairwise
      (fun a b => ¬((a.id == some hid) = true ∧ (b.id == some hid) = true)) :=
    huniq.imp (by intro a b hne ⟨ha, hb⟩
                  exact hne ((eq_of_beq ha).trans (eq_of_beq hb).symm))
  constructor
  · constructor
    · intro herr
      rcases hfind : db.histories.find? (fun h => h.id == some hid) with _ | row
      · exact hfind
      · rw [show HistoryRepository.delete db hid =
            .ok { db with histories := db.histories.eraseP (fun h => h.id == some hid) }
            from by simp [HistoryRepository.delete, hfind]] at herr
        exact absurd herr (by simp)
    · intro hnone
      simp [HistoryRepository.delete, hnone]
  · intro hsome
    rcases hfind : db.histories.find? (fun h => h.id == some hid) with _ | row
    · rw [hfind] at hsome; exact absurd hsome (by simp)
    · rw [show HistoryRepository.delete db hid =
          .ok { db with histories := db.histories.eraseP (fun h => h.id == some hid) }
          from by simp [HistoryRepository.delete, hfind]]
      rw [eraseP_eq_filter_of_pairwise _ _ hpair]

/-- Witness for C6: a database with a single history row of id `1`:
deleting id `2` raises `NotFoundError`, deleting id `1` succeeds and
keeps exactly the rows with a different id. -/
theorem C6_history_delete_witness :
    HistoryRepository.delete
      ⟨[], [⟨some 1, "abcde", "", "0円 ~ 0円", "", "", "", "", "Zelda"⟩], 2⟩ 2 =
      .error (.notFoundError ("history_id: " ++ toString 2)) ∧
    HistoryRepository.delete
      ⟨[], [⟨some 1, "abcde", "", "0円 ~ 0円", "", "", "", "", "Zelda"⟩], 2⟩ 1 =
      .ok ⟨[], [⟨some 1, "abcde", "", "0円 ~ 0円", "", "", "", "", "Zelda"⟩].filter
            (fun h => !(h.id == some 1)), 2⟩ := by
  constructor
  · exact (C6_history_delete _ 2 (by simp)).1.mpr rfl
  · exact (C6_history_delete _ 1 (by simp)).2 rfl

/-- `listStartsWith` holds on any extension of the pattern. -/
theorem listStartsWith_append (p t : List Char) :
    listStartsWith p (p ++ t) = true := by
  induction p with
  | nil => rfl
  | cons c cs ih => simp [listStartsWith, ih]

/-- `listStartsWith` only reads the first `p.length` characters. -/
theorem listStartsWith_eq_of_take_eq (p : List Char) :
    ∀ l₁ l₂ : List Char, l₁.take p.length = l₂.take p.length →
      listStartsWith p l₁ = listStartsWith p l₂ := by
  induction p with
  | nil => intro l₁ l₂ _; cases l₁ <;> cases l₂ <;> rfl
  | cons c cs ih =>
    intro l₁ l₂ h
    cases l₁ with
    | nil =>
      cases l₂ with
      | nil => rfl
      | cons b bs => simp at h
    | cons a as =>
      cases l₂ with
      | nil => simp at h
      | cons b bs =>
        simp only [List.length_cons, List.take_succ_cons, List.cons.injEq] at h
        simp [listStartsWith, h.1, ih as bs h.2]

/-- The capture `[^\n]*` stops exactly at the first newline. -/
theorem takeUntilNewline_append (rest post : List Char)
    (h : rest.contains '\n' = false) :
    takeUntilNewline (rest ++ '\n' :: post) = rest := by
  induction rest with
  | nil => simp [takeUntilNewline]
  | cons c cs ih =>
    simp only [List.contains_cons, Bool.or_eq_false_iff] at h
    have hc : (c == '\n') = false := by
      cases hb : c == '\n'
      · rfl
      · exact absurd (by simpa using (eq_of_beq hb).symm) (by simpa using h.1)
    simp only [List.cons_append, takeUntilNewline, hc]
    simp [ih h.2]

/-- The capture `[^\n]*` runs to the end of the input when there is no
newline at all. -/
theorem takeUntilNewline_of_not_contains (rest : List Char)
    (h : rest.contains '\n' = false) :
    takeUntilNewline rest = rest := by
  induction rest with
  | nil => rfl
  | cons c cs ih =>
    simp only [List.contains_cons, Bool.or_eq_false_iff] at h
    have hc : (c == '\n') = false := by
      cases hb : c == '\n'
      · rfl
      · exact absurd (by simpa using (eq_of_beq hb).symm) (by simpa using h.1)
    simp only [takeUntilNewline, hc]
    simp [ih h.2]

/-- `re.search` fails on text without an occurrence of the marker. -/
theorem searchMarker_eq_none (l : List Char)
    (h : containsSub markerChars l = false) : searchMarker l = none := by
  induction l with
  | nil => rfl
  | cons c cs ih =>
    rw [show containsSub markerChars (c :: cs) =
        (listStartsWith markerChars (c :: cs) || containsSub markerChars cs) from rfl] at h
    rcases Bool.or_eq_false_iff.mp h with ⟨h1, h2⟩
    rw [show searchMarker (c :: cs) =
        if listStartsWith markerChars (c :: cs) then
          some (takeUntilNewline ((c :: cs).drop markerChars.length))
        else searchMarker cs from rfl]
    simp [h1, ih h2]

/-- The first `markerChars.length` characters of `u ++ markerChars.dropLast`
and of `u ++ (markerChars ++ tail)` agree whenever `u` is nonempty. -/
theorem take_marker_agree (u tail : List Char) (hu : u ≠ []) :
    (u ++ markerChars.dropLast).take markerChars.length =
      (u ++ (markerChars ++ tail)).take markerChars.length := by
  have hupos : 1 ≤ u.length := List.length_pos.mpr hu
  have hm : markerChars.length = 7 := by decide
  rw [List.take_append_eq_append_take, List.take_append_eq_append_take]
  congr 1
  have hk : markerChars.length - u.length ≤ markerChars.length - 1 := by omega
  rw [List.dropLast_eq_take, List.take_take, Nat.min_eq_left hk]
  rw [List.take_append_eq_append_take]
  have hz : markerChars.length - u.length - markerChars.length = 0 := by omega
  rw [hz]
  simp

/-- Occurrences of the marker in `pre ++ markerChars ++ tail` starting
before index `pre.length` all lie inside `pre ++ markerChars.dropLast`;
when there are none, `re.search` finds the occurrence at `pre.length`
and captures up to the next newline. -/
theorem searchMarker_first (pre tail : List Char)
    (h : containsSub markerChars (pre ++ markerChars.dropLast) = false) :
    searchMarker (pre ++ (markerChars ++ tail)) = some (takeUntilNewline tail) := by
  induction pre with
  | nil =>
    simp only [List.nil_append]
    rcases hmc : markerChars with _ | ⟨c, cs⟩
    · exact absurd hmc (by decide)
    · rw [List.cons_append]
      rw [show searchMarker (c :: (cs ++ tail)) =
          if listStartsWith markerChars (c :: (cs ++ tail)) then
            some (takeUntilNewline ((c :: (cs ++ tail)).drop markerChars.length))
          else searchMarker (cs ++ tail) from rfl]
      rw [show (c :: (cs ++ tail)) = (c :: cs) ++ tail from rfl, ← hmc]
      simp only [listStartsWith_append, if_true]
      rw [List.drop_left]
  | cons a pre' ih =>
    rw [show (a :: pre') ++ markerChars.dropLast =
        a :: (pre' ++ markerChars.dropLast) from rfl] at h
    rw [show containsSub markerChars (a :: (pre' ++ markerChars.dropLast)) =
        (listStartsWith markerChars (a :: (pre' ++ markerChars.dropLast)) ||
         containsSub markerChars (pre' ++ markerChars.dropLast)) from rfl] at h
    rcases Bool.or_eq_false_iff.mp h with ⟨h1, h2⟩
    rw [show (a :: pre') ++ (markerChars ++ tail) =
        a :: (pre' ++ (markerChars ++ tail)) from rfl]
    rw [show searchMarker (a :: (pre' ++ (markerChars ++ tail))) =
        if listStartsWith markerChars (a :: (pre' ++ (markerChars ++ tail))) then
          some (takeUntilNewline ((a :: (pre' ++ (markerChars ++ tail))).drop markerChars.length))
        else searchMarker (pre' ++ (markerChars ++ tail)) from rfl]
    have hfalse : listStartsWith markerChars (a :: (pre' ++ (markerChars ++ tail))) = false := by
      rw [show a :: (pre' ++ (markerChars ++ tail)) = (a :: pre') ++ (markerChars ++ tail) from rfl]
      rw [← listStartsWith_eq_of_take_eq markerChars _ _
            (take_marker_agree (a :: pre') tail (by simp))]
      rw [show (a :: pre') ++ markerChars.dropLast =
          a :: (pre' ++ markerChars.dropLast) from rfl]
      exact h1
    simp [hfalse, ih h2]

/-! ## Claim C7: `RecommendedGame.from_text` -/

/-- C7.  For every text whose leftmost marker occurrence is followed by
the newline-free remainder `rest` — whether the marker line is
terminated by a newline (`pre ++ "推薦ゲーム: " ++ rest ++ "\n" ++ post`,
first conjunct) or runs to the end of the text
(`pre ++ "推薦ゲーム: " ++ rest`, second conjunct) — extraction yields
exactly `rest`, the remainder of that line up to the end of line,
re-validated against the 100-character bound.  The `hfirst` hypothesis
pins the leftmost occurrence: the region `pre ++ markerChars.dropLast`
covers exactly the occurrences starting at an index `< pre.length`.
And for every text with no marker occurrence at all, extraction fails
with the `ValueError` `推薦ゲームが見つかりませんでした`. -/
theorem C7_from_text_extraction (pre rest post : List Char)
    (hfirst : containsSub markerChars (pre ++ markerChars.dropLast) = false)
    (hrest : rest.contains '\n' = false) :
    (RecommendedGame.from_text
        (String.mk (pre ++ (markerChars ++ (rest ++ '\n' :: post)))) =
      (if rest.length ≤ 100 then .ok (String.mk rest)
       else .error (.validationError "推薦ゲーム名が長すぎます"))) ∧
    (RecommendedGame.from_text (String.mk (pre ++ (markerChars ++ rest))) =
      (if rest.length ≤ 100 then .ok (String.mk rest)
       else .error (.validationError "推薦ゲーム名が長すぎます"))) ∧
    ∀ t : String, containsSub markerChars t.toList = false →
      RecommendedGame.from_text t =
        .error (.valueError "予期せぬエラーが発生しました: 推薦ゲームが見つかりませんでした") := by
  refine ⟨?_, ?_, ?_⟩
  · unfold RecommendedGame.from_text
    rw [show (String.mk (pre ++ (markerChars ++ (rest ++ '\n' :: post)))).toList =
        pre ++ (markerChars ++ (rest ++ '\n' :: post)) from rfl]
    rw [searchMarker_first pre (rest ++ '\n' :: post) hfirst]
    rw [takeUntilNewline_append rest post hrest]
    rfl
  · unfold RecommendedGame.from_text
    rw [show (String.mk (pre ++ (markerChars ++ rest))).toList =
        pre ++ (markerChars ++ rest) from rfl]
    rw [searchMarker_first pre rest hfirst]
    rw [takeUntilNewline_of_not_contains rest hrest]
    rfl
  · intro t ht
    unfold RecommendedGame.from_text
    rw [searchMarker_eq_none t.toList ht]

/-- Witness for C7: the one-line text `推薦ゲーム: Chrono Trigger`
(no trailing newline) extracts exactly `Chrono Trigger`, so does the
newline-terminated form, and text without the marker fails. -/
theorem C7_from_text_extraction_witness :
    (RecommendedGame.from_text
        (String.mk ([] ++ (markerChars ++ ("Chrono Trigger".toList ++ '\n' :: [])))) =
      (if "Chrono Trigger".toList.length ≤ 100 then .ok (String.mk "Chrono Trigger".toList)
       else .error (.validationError "推薦ゲーム名が長すぎます"))) ∧
    (RecommendedGame.from_text (String.mk ([] ++ (markerChars ++ "Chrono Trigger".toList))) =
      (if "Chrono Trigger".toList.length ≤ 100 then .ok (String.mk "Chrono Trigger".toList)
       else .error (.validationError "推薦ゲーム名が長すぎます"))) ∧
    RecommendedGame.from_text "こんにちは" =
      .error (.valueError "予期せぬエラーが発生しました: 推薦ゲームが見つかりませんでした") :=
  ⟨(C7_from_text_extraction [] "Chrono Trigger".toList [] (by decide) (by decide)).1,
   (C7_from_text_extraction [] "Chrono Trigger".toList [] (by decide) (by decide)).2.1,
   (C7_from_text_extraction [] "Chrono Trigger".toList [] (by decide) (by decide)).2.2
     "こんにちは" (by decide)⟩

/-! ## Claim C2: recommendation failure handling -/

/-- C2, counterexample.  The claim says a missing marker line in the
generated text is recoverable: a user-visible error message is shown and
no uncaught exception escapes the page controller.  At the concrete
input `"こんにちは"` (valid empty preferences, logged-in user), the
`ValueError` raised by `RecommendedGame.from_text` escapes
`RecommendPage.render` — the `except` clause there only catches
`pydantic.ValidationError` — so the outcome is `raised`, not a
user-visible message (the database is unchanged, though). -/
theorem C2_recommend_counterexample :
    RecommendPage.searchSubmit ⟨[], [], 1⟩ ⟨PageID.RECOMMEND, some "abcde"⟩
        (some "こんにちは") "" 0 0 "" "" "" "" =
      (⟨[], [], 1⟩,
       .raised (.valueError "予期せぬエラーが発生しました: 推薦ゲームが見つかりませんでした")) ∧
    (RecommendPage.searchSubmit ⟨[], [], 1⟩ ⟨PageID.RECOMMEND, some "abcde"⟩
        (some "こんにちは") "" 0 0 "" "" "" "").2 ≠
      PageOutcome.msg "予期せぬエラーが発生しました: おすすめのゲームが見つかりませんでした" := by
  refine ⟨rfl, ?_⟩
  decide

/-- C2, amended.  When the recommendation call returns no content, an
inline user-visible message is shown and no history row is written (the
database is returned unchanged).  When the generated text contains no
line matching `推薦ゲーム: `, the `ValueError` of
`RecommendedGame.from_text` propagates out of `__recommend` and out of
`RecommendPage.render` uncaught (only `pydantic.ValidationError` is
caught there) — again with no history row written. -/
theorem C2_recommend_amended (db : DB) (sess : SessionState)
    (genre price hardware game_format world_view detail : String) :
    (RecommendPage.recommend db sess none genre price hardware game_format
        world_view detail =
      .ok (db, .msg "予期せぬエラーが発生しました: おすすめのゲームが見つかりませんでした")) ∧
    (∀ text : String, containsSub markerChars text.toList = false →
      RecommendPage.recommend db sess (some text) genre price hardware game_format
          world_view detail =
        .error (.valueError "予期せぬエラーが発生しました: 推薦ゲームが見つかりませんでした")) ∧
    (∀ (gi : String) (lo hi : Int) (hw gf wv dt : String),
      Genre.validate gi = .ok gi → Price.validate lo hi = .ok (lo, hi) →
      Hardware.validate hw = .ok hw → GameFormat.validate gf = .ok gf →
      WorldView.validate wv = .ok wv → Detail.validate dt = .ok dt →
      (RecommendPage.searchSubmit db sess none gi lo hi hw gf wv dt =
        (db, .msg "予期せぬエラーが発生しました: おすすめのゲームが見つかりませんでした")) ∧
      (∀ text : String, containsSub markerChars text.toList = false →
        RecommendPage.searchSubmit db sess (some text) gi lo hi hw gf wv dt =
          (db, .raised (.valueError "予期せぬエラーが発生しました: 推薦ゲームが見つかりませんでした")))) := by
  have hnone : ∀ text : String, containsSub markerChars text.toList = false →
      RecommendedGame.from_text text =
        .error (.valueError "予期せぬエラーが発生しました: 推薦ゲームが見つかりませんでした") := by
    intro text ht
    unfold RecommendedGame.from_text
    rw [searchMarker_eq_none text.toList ht]
  refine ⟨rfl, ?_, ?_⟩
  · intro text ht
    simp [RecommendPage.recommend, hnone text ht]
  · intro gi lo hi hw gf wv dt hg hp hh hgf hwv hd
    constructor
    · simp [RecommendPage.searchSubmit, hg, hp, hh, hgf, hwv, hd,
            RecommendPage.recommend, Bind.bind, Except.bind]
    · intro text ht
      simp [RecommendPage.searchSubmit, hg, hp, hh, hgf, hwv, hd,
            RecommendPage.recommend, hnone text ht, Bind.bind, Except.bind]

/-- Witness for C2 at empty valid preferences, a logged-in user, and
the marker-free text `"こんにちは"`. -/
theorem C2_recommend_amended_witness :
    (RecommendPage.recommend ⟨[], [], 1⟩ ⟨PageID.RECOMMEND, some "abcde"⟩ none
        "" "0円 ~ 0円" "" "" "" "" =
      .ok (⟨[], [], 1⟩,
        .msg "予期せぬエラーが発生しました: おすすめのゲームが見つかりませんでした")) ∧
    (RecommendPage.recommend ⟨[], [], 1⟩ ⟨PageID.RECOMMEND, some "abcde"⟩ (some "こんにちは")
        "" "0円 ~ 0円" "" "" "" "" =
      .error (.valueError "予期せぬエラーが発生しました: 推薦ゲームが見つかりませんでした")) ∧
    (RecommendPage.searchSubmit ⟨[], [], 1⟩ ⟨PageID.RECOMMEND, some "abcde"⟩ none
        "" 0 0 "" "" "" "" =
      (⟨[], [], 1⟩,
       .msg "予期せぬエラーが発生しました: おすすめのゲームが見つかりませんでした")) ∧
    (RecommendPage.searchSubmit ⟨[], [], 1⟩ ⟨PageID.RECOMMEND, some "abcde"⟩ (some "こんにちは")
        "" 0 0 "" "" "" "" =
      (⟨[], [], 1⟩,
       .raised (.valueError "予期せぬエラーが発生しました: 推薦ゲームが見つかりませんでした"))) :=
  ⟨(C2_recommend_amended ⟨[], [], 1⟩ ⟨PageID.RECOMMEND, some "abcde"⟩ "" "0円 ~ 0円" "" "" "" "").1,
   (C2_recommend_amended ⟨[], [], 1⟩ ⟨PageID.RECOMMEND, some "abcde"⟩ "" "0円 ~ 0円" "" "" "" "").2.1
     "こんにちは" (by decide),
   ((C2_recommend_amended ⟨[], [], 1⟩ ⟨PageID.RECOMMEND, some "abcde"⟩ "" "0円 ~ 0円" "" "" "" "").2.2
     "" 0 0 "" "" "" "" rfl rfl rfl rfl rfl rfl).1,
   ((C2_recommend_amended ⟨[], [], 1⟩ ⟨PageID.RECOMMEND, some "abcde"⟩ "" "0円 ~ 0円" "" "" "" "").2.2
     "" 0 0 "" "" "" "" rfl rfl rfl rfl rfl rfl).2 "こんにちは" (by decide)⟩

/-! ## Claim C9: login page on an absent account -/

/-- `Password.validate` either fails with a `ValidationError` or returns
its input. -/
theorem password_validate_shape (pw : String) :
    (∃ m, Password.validate pw = .error (.validationError m)) ∨
      Password.validate pw = .ok pw := by
  unfold Password.validate
  split
  · exact .inl ⟨_, rfl⟩
  · split
    · exact .inl ⟨_, rfl⟩
    · split
      · exact .inl ⟨_, rfl⟩
      · exact .inr rfl

/-- C9.  For a login-form submission whose user id passes the length
validation but matches no stored account row, the page shows the
generic message `ユーザーIDまたはパスワードが違います` — the
`AttributeError` raised inside `UserRepository.login` (and any
`ValidationError` of the password) is caught at the page-controller
boundary — and the session's user id remains absent. -/
theorem C9_login_page_absent_account (B : Bcrypt) (db : DB) (sess : SessionState)
    (uid pw : String)
    (hlen : 5 ≤ uid.length ∧ uid.length ≤ 20)
    (habs : db.accounts.find? (fun a => a.user_id == uid) = none)
    (hsess : sess.user_id = none) :
    LoginPage.submit B db sess uid pw =
      (sess, .msg "ユーザーIDまたはパスワードが違います") ∧
    (LoginPage.submit B db sess uid pw).1.user_id = none := by
  have hu : UserID.validate uid = .ok uid := by
    simp [UserID.validate, hlen.1, hlen.2]
  have hlogin : UserRepository.login B db uid pw = .error .attributeError := by
    simp [UserRepository.login, habs]
  have hmain : LoginPage.submit B db sess uid pw =
      (sess, .msg "ユーザーIDまたはパスワードが違います") := by
    rcases password_validate_shape pw with ⟨m, hm⟩ | hok
    · simp [LoginPage.submit, hu, hm]
    · simp [LoginPage.submit, hu, hok, hlogin]
  exact ⟨hmain, by rw [hmain]; exact hsess⟩

/-- Witness for C9: submitting `"abcde"` / `"pass1234"` against an
empty account table from a logged-out session. -/
theorem C9_login_page_absent_account_witness :
    LoginPage.submit toyBcrypt ⟨[], [], 1⟩ ⟨PageID.LOGIN, none⟩ "abcde" "pass1234" =
      (⟨PageID.LOGIN, none⟩, .msg "ユーザーIDまたはパスワードが違います") ∧
    (LoginPage.submit toyBcrypt ⟨[], [], 1⟩ ⟨PageID.LOGIN, none⟩
        "abcde" "pass1234").1.user_id = none :=
  C9_login_page_absent_account toyBcrypt ⟨[], [], 1⟩ ⟨PageID.LOGIN, none⟩ "abcde" "pass1234"
    ⟨by decide, by decide⟩ rfl rfl
